import Mathlib

/-!
Shallow embedding of the nih-plug plugin interface layer
(`src/plugin.rs` and `nih_plug_vizia/src/widgets/util.rs`), together with
theorems settling the specification's testable properties.

Rust machine integers (`u32`, `u8`) are modelled as `Nat`: none of the code
embedded here performs arithmetic on them, so overflow never matters.  A
16-byte array `[u8; 16]` is modelled as `Fin 16 → Byte` with
`Byte := Fin 256`.  Trait objects from external crates
(`raw_window_handle::RawWindowHandle`, the `vizia` GUI types) are modelled
as abstract carriers: only what the embedded repository code touches is
represented.  Methods taking `&mut self` are embedded in state-passing
style (the state goes in and comes back out); methods taking `&self` cannot
mutate the receiver, and their default bodies read only their arguments, so
they are embedded as pure functions of the receiver.
-/

/-- A byte value, the model of Rust's `u8` where the exact range matters. -/
abbrev Byte := Fin 256

/-- `BusConfig` from `src/plugin.rs`: the single main input and output bus.
Both fields are `u32` in the source. -/
structure BusConfig where
  num_input_channels : Nat
  num_output_channels : Nat
deriving DecidableEq, Repr

/-- `BufferConfig` from `src/plugin.rs`.  `sample_rate` is an `f32` in the
source; no embedded code computes with it, so it is carried opaquely. -/
structure BufferConfig where
  sample_rate : Float
  max_buffer_size : Nat

/-- Model of the external `raw_window_handle::RawWindowHandle` enum.  The
repository code never inspects its contents, so it is an opaque payload. -/
structure RawWindowHandle where
  raw : Nat
deriving DecidableEq, Repr

/-- `ParentWindowHandle` from `src/plugin.rs`: wraps one raw window handle. -/
structure ParentWindowHandle where
  handle : RawWindowHandle
deriving DecidableEq, Repr

/-- `ParentWindowHandle::raw_window_handle` from the
`HasRawWindowHandle` impl in `src/plugin.rs`: returns `self.handle`. -/
def ParentWindowHandle.raw_window_handle (self : ParentWindowHandle) :
    RawWindowHandle :=
  self.handle

/-- `ProcessStatus` from `src/plugin.rs`. -/
inductive ProcessStatus where
  | Error (msg : String)
  | Normal
  | Tail (samples : Nat)
  | KeepAlive
deriving DecidableEq, Repr

/-- The `PartialEq` comparison derived on `ProcessStatus` in the source:
equal variant and field-wise equal payloads. -/
def ProcessStatus.beq : ProcessStatus → ProcessStatus → Bool
  | .Error a, .Error b => a == b
  | .Normal, .Normal => true
  | .Tail a, .Tail b => a == b
  | .KeepAlive, .KeepAlive => true
  | _, _ => false

/-- `NoteEvent` from `src/plugin.rs`: `timing` is a `u32` sample offset,
`channel`, `note` and `velocity` are `u8`. -/
inductive NoteEvent where
  | NoteOn (timing : Nat) (channel : Nat) (note : Nat) (velocity : Nat)
  | NoteOff (timing : Nat) (channel : Nat) (note : Nat) (velocity : Nat)
deriving DecidableEq, Repr

/-- `NoteEvent::timing` from `src/plugin.rs`: the sample within the current
buffer this event belongs to. -/
def NoteEvent.timing : NoteEvent → Nat
  | .NoteOn timing _ _ _ => timing
  | .NoteOff timing _ _ _ => timing

/-- Model of the `Editor` trait object from `src/plugin.rs`.  Only `size`
is data; `spawn` is effectful GUI code outside this embedding. -/
structure Editor where
  size : Nat × Nat

namespace Plugin

/-- `Plugin::DEFAULT_NUM_INPUTS` default from `src/plugin.rs`. -/
def DEFAULT_NUM_INPUTS : Nat := 2

/-- `Plugin::DEFAULT_NUM_OUTPUTS` default from `src/plugin.rs`. -/
def DEFAULT_NUM_OUTPUTS : Nat := 2

/-- `Plugin::ACCEPTS_MIDI` default from `src/plugin.rs`. -/
def ACCEPTS_MIDI : Bool := false

/-- Default body of `Plugin::editor` from `src/plugin.rs`: `None`.  The
receiver `self` is an arbitrary implementor state `σ`. -/
def editor_default {σ : Type} (self : σ) : Option Editor :=
  none

/-- Default body of `Plugin::accepts_bus_config` from `src/plugin.rs`:
`config.num_input_channels == 2 && config.num_output_channels == 2`.
The receiver is a shared reference (`&self`), so the result is a pure
function of the receiver state and the config. -/
def accepts_bus_config {σ : Type} (self : σ) (config : BusConfig) : Bool :=
  config.num_input_channels == 2 && config.num_output_channels == 2

/-- One call of the default `accepts_bus_config` in state-passing style:
`&self` is an immutable borrow and the default body only reads `config`,
so the receiver state passes through unchanged alongside the result. -/
def accepts_bus_config_call {σ : Type} (self : σ) (config : BusConfig) :
    Bool × σ :=
  (accepts_bus_config self config, self)

/-- Default body of `Plugin::initialize` from `src/plugin.rs`, in
state-passing style for the `&mut self` receiver: the body is literally
`true` and never touches `self` or the context, so the state passes
through unchanged and the result is `true`. -/
def initialize_default {σ Ctx : Type} (self : σ) (bus_config : BusConfig)
    (buffer_config : BufferConfig) (context : Ctx) : Bool × σ :=
  (true, self)

end Plugin

/-- `swap_vst3_uid_byte_order` from `src/plugin.rs`, the
`cfg(not(target_os = "windows"))` version: the identity on the 16 bytes. -/
def swap_vst3_uid_byte_order_not_windows (uid : Fin 16 → Byte) :
    Fin 16 → Byte :=
  uid

/-- `swap_vst3_uid_byte_order` from `src/plugin.rs`, the
`cfg(target_os = "windows")` version: bytes 0..3 reversed, bytes 4..5
swapped, bytes 6..7 swapped, bytes 8..15 untouched (each output position
reads from `original_uid` exactly as the source's assignments do). -/
def swap_vst3_uid_byte_order_windows (uid : Fin 16 → Byte) :
    Fin 16 → Byte := fun i =>
  if i = 0 then uid 3
  else if i = 1 then uid 2
  else if i = 2 then uid 1
  else if i = 3 then uid 0
  else if i = 4 then uid 5
  else if i = 5 then uid 4
  else if i = 6 then uid 7
  else if i = 7 then uid 6
  else uid i

/-- The concrete identifier `[0, 1, 2, ..., 15]` from the spec scenario. -/
def vst3TestUid : Fin 16 → Byte := fun i => ⟨i.val, by omega⟩

/-- The spec scenario's expected result `[3,2,1,0,5,4,7,6,8,...,15]`. -/
def vst3TestUidSwapped : Fin 16 → Byte := fun i =>
  if i = 0 then ⟨3, by omega⟩
  else if i = 1 then ⟨2, by omega⟩
  else if i = 2 then ⟨1, by omega⟩
  else if i = 3 then ⟨0, by omega⟩
  else if i = 4 then ⟨5, by omega⟩
  else if i = 5 then ⟨4, by omega⟩
  else if i = 6 then ⟨7, by omega⟩
  else if i = 7 then ⟨6, by omega⟩
  else ⟨i.val, by omega⟩

/-- Flags of the external `vizia::Modifiers` bitflags type that the
repository code names: SHIFT, CTRL, ALT and LOGO. -/
inductive ModifiersFlag where
  | SHIFT
  | CTRL
  | ALT
  | LOGO
deriving DecidableEq, Repr

/-- Model of the external `vizia::Modifiers` bitflags value as the set of
flags it holds (each named flag is a distinct single bit). -/
structure Modifiers where
  flags : ModifiersFlag → Bool

/-- Bitflags `contains`: the given flag's bit is set in `self`. -/
def Modifiers.holds_flag (self : Modifiers) (f : ModifiersFlag) : Bool :=
  self.flags f

namespace ModifiersExt

/-- `ModifiersExt::command` for `Modifiers` from
`nih_plug_vizia/src/widgets/util.rs`, the `cfg(target_os = "macos")`
branch: `self.contains(Modifiers::LOGO)`. -/
def command_macos (self : Modifiers) : Bool :=
  self.holds_flag .LOGO

/-- `ModifiersExt::command` for `Modifiers` from
`nih_plug_vizia/src/widgets/util.rs`, the `cfg(not(target_os = "macos"))`
branch: `self.contains(Modifiers::CTRL)`. -/
def command_not_macos (self : Modifiers) : Bool :=
  self.holds_flag .CTRL

/-- `ModifiersExt::alt` from `nih_plug_vizia/src/widgets/util.rs`:
`self.contains(Modifiers::ALT)`. -/
def alt (self : Modifiers) : Bool :=
  self.holds_flag .ALT

/-- `ModifiersExt::shift` from `nih_plug_vizia/src/widgets/util.rs`:
`self.contains(Modifiers::SHIFT)`. -/
def shift (self : Modifiers) : Bool :=
  self.holds_flag .SHIFT

end ModifiersExt

/-- C1: the default `accepts_bus_config` returns `true` exactly when the
bus config has 2 input channels and 2 output channels, for every receiver
state; any other channel-count combination yields `false`. -/
theorem accepts_bus_config_default_iff :
    ∀ (σ : Type) (self : σ) (config : BusConfig),
      Plugin.accepts_bus_config self config = true ↔
        (config.num_input_channels = 2 ∧ config.num_output_channels = 2) := by
  intro σ self config
  simp [Plugin.accepts_bus_config]

/-- C2: `swap_vst3_uid_byte_order` is an involution on 16-byte identifiers —
the Windows version applied twice returns every byte to its place — and
the non-Windows version is the identity on all 16-byte inputs. -/
theorem swap_vst3_uid_byte_order_involutive :
    (∀ (uid : Fin 16 → Byte) (i : Fin 16),
      swap_vst3_uid_byte_order_windows
        (swap_vst3_uid_byte_order_windows uid) i = uid i) ∧
    (∀ (uid : Fin 16 → Byte) (i : Fin 16),
      swap_vst3_uid_byte_order_not_windows uid i = uid i) := by
  constructor
  · intro uid i
    fin_cases i <;> rfl
  · intro uid i
    rfl

/-- C3: on Windows, `swap_vst3_uid_byte_order` swaps positions 0↔3, 1↔2,
4↔5 and 6↔7 and leaves bytes 8 through 15 unchanged, for every 16-byte
identifier; in particular `[0,1,2,...,15]` maps to
`[3,2,1,0,5,4,7,6,8,...,15]`. -/
theorem swap_vst3_uid_byte_order_windows_spec :
    (∀ uid : Fin 16 → Byte,
      swap_vst3_uid_byte_order_windows uid 0 = uid 3 ∧
      swap_vst3_uid_byte_order_windows uid 1 = uid 2 ∧
      swap_vst3_uid_byte_order_windows uid 2 = uid 1 ∧
      swap_vst3_uid_byte_order_windows uid 3 = uid 0 ∧
      swap_vst3_uid_byte_order_windows uid 4 = uid 5 ∧
      swap_vst3_uid_byte_order_windows uid 5 = uid 4 ∧
      swap_vst3_uid_byte_order_windows uid 6 = uid 7 ∧
      swap_vst3_uid_byte_order_windows uid 7 = uid 6 ∧
      swap_vst3_uid_byte_order_windows uid 8 = uid 8 ∧
      swap_vst3_uid_byte_order_windows uid 9 = uid 9 ∧
      swap_vst3_uid_byte_order_windows uid 10 = uid 10 ∧
      swap_vst3_uid_byte_order_windows uid 11 = uid 11 ∧
      swap_vst3_uid_byte_order_windows uid 12 = uid 12 ∧
      swap_vst3_uid_byte_order_windows uid 13 = uid 13 ∧
      swap_vst3_uid_byte_order_windows uid 14 = uid 14 ∧
      swap_vst3_uid_byte_order_windows uid 15 = uid 15) ∧
    (∀ i : Fin 16,
      swap_vst3_uid_byte_order_windows vst3TestUid i = vst3TestUidSwapped i) := by
  constructor
  · intro uid
    exact ⟨rfl, rfl, rfl, rfl, rfl, rfl, rfl, rfl, rfl, rfl, rfl, rfl, rfl,
      rfl, rfl, rfl⟩
  · decide

/-- C4: the derived `ProcessStatus` equality holds exactly between values
of the same variant with identical payloads; in particular `Tail 5` and
`Tail 6` compare unequal, `Error "x"` and `Error "y"` compare unequal, and
values of different variants always compare unequal. -/
theorem processStatus_beq_iff_eq :
    (∀ a b : ProcessStatus, a.beq b = true ↔ a = b) ∧
    ProcessStatus.beq (.Tail 5) (.Tail 6) = false ∧
    ProcessStatus.beq (.Error "x") (.Error "y") = false ∧
    (∀ (s : String) (n : Nat),
      ProcessStatus.beq (.Error s) .Normal = false ∧
      ProcessStatus.beq (.Error s) (.Tail n) = false ∧
      ProcessStatus.beq (.Error s) .KeepAlive = false ∧
      ProcessStatus.beq .Normal (.Tail n) = false ∧
      ProcessStatus.beq .Normal .KeepAlive = false ∧
      ProcessStatus.beq (.Tail n) .KeepAlive = false) := by
  refine ⟨?_, by decide, ?_, ?_⟩
  · intro a b
    cases a <;> cases b <;> simp [ProcessStatus.beq]
  · simp [ProcessStatus.beq]
  · intro s n
    exact ⟨rfl, rfl, rfl, rfl, rfl, rfl⟩

/-- C5: `NoteEvent::timing` returns the embedded `timing` field for both
the `NoteOn` and the `NoteOff` variant, for all field values. -/
theorem noteEvent_timing_spec :
    ∀ (timing channel note velocity : Nat),
      (NoteEvent.NoteOn timing channel note velocity).timing = timing ∧
      (NoteEvent.NoteOff timing channel note velocity).timing = timing := by
  intro timing channel note velocity
  exact ⟨rfl, rfl⟩

/-- C6: the default `initialize` returns `true` for every receiver state,
bus config, buffer config and process context, leaves the plugin state
unchanged, and so a second call with identical configs yields the very
same configured state (idempotence). -/
theorem initialize_default_idempotent :
    ∀ (σ Ctx : Type) (self : σ) (bus_config : BusConfig)
      (buffer_config : BufferConfig) (context : Ctx),
      Plugin.initialize_default self bus_config buffer_config context
        = (true, self) ∧
      Plugin.initialize_default
          (Plugin.initialize_default self bus_config buffer_config context).2
          bus_config buffer_config context
        = Plugin.initialize_default self bus_config buffer_config context := by
  intro σ Ctx self bus_config buffer_config context
  exact ⟨rfl, rfl⟩

/-- C7: the default `accepts_bus_config` is a pure predicate — a call
leaves the receiver state unchanged, and repeated calls with the same
config (including a call made from the state left by a previous call)
yield the same boolean result. -/
theorem accepts_bus_config_default_pure :
    ∀ (σ : Type) (self : σ) (config : BusConfig),
      (Plugin.accepts_bus_config_call self config).2 = self ∧
      (Plugin.accepts_bus_config_call self config).1
        = Plugin.accepts_bus_config self config ∧
      Plugin.accepts_bus_config_call
          (Plugin.accepts_bus_config_call self config).2 config
        = Plugin.accepts_bus_config_call self config := by
  intro σ self config
  exact ⟨rfl, rfl, rfl⟩

/-- C8: the interface defaults are 2 input channels, 2 output channels,
no MIDI note input, and no editor (`editor` returns `none` for every
receiver state). -/
theorem plugin_interface_defaults :
    Plugin.DEFAULT_NUM_INPUTS = 2 ∧
    Plugin.DEFAULT_NUM_OUTPUTS = 2 ∧
    Plugin.ACCEPTS_MIDI = false ∧
    (∀ (σ : Type) (self : σ), Plugin.editor_default self = none) := by
  exact ⟨rfl, rfl, rfl, fun σ self => rfl⟩

/-- C9: `ParentWindowHandle::raw_window_handle` returns exactly the wrapped
handle, unchanged, and the wrapper stores exactly that one handle and
nothing else (every `ParentWindowHandle` is the wrapping of its own
`handle` field). -/
theorem parentWindowHandle_raw_window_handle_spec :
    (∀ p : ParentWindowHandle, p.raw_window_handle = p.handle) ∧
    (∀ h : RawWindowHandle,
      (ParentWindowHandle.mk h).raw_window_handle = h) ∧
    (∀ p : ParentWindowHandle, p = ParentWindowHandle.mk p.handle) := by
  exact ⟨fun p => rfl, fun h => rfl, fun p => rfl⟩

/-- C10: the `ModifiersExt` getters are membership tests on the modifier
flags: `alt` holds iff ALT is contained, `shift` iff SHIFT is contained,
and `command` iff CTRL is contained off macOS (LOGO on macOS). -/
theorem modifiersExt_getters_spec :
    ∀ m : Modifiers,
      (ModifiersExt.alt m = true ↔ m.holds_flag .ALT = true) ∧
      (ModifiersExt.shift m = true ↔ m.holds_flag .SHIFT = true) ∧
      (ModifiersExt.command_not_macos m = true ↔ m.holds_flag .CTRL = true) ∧
      (ModifiersExt.command_macos m = true ↔ m.holds_flag .LOGO = true) := by
  intro m
  exact ⟨Iff.rfl, Iff.rfl, Iff.rfl, Iff.rfl⟩
